import Mathlib

/-!
Verification development for the FAC (Federal Audit Clearinghouse) API client
found in `src/data_collection/fac_api.py`.

The network boundary is modelled by a scripted trace of events (`NetEvent`):
each iteration of the client's request loop consumes exactly one event, which
is either a response (status code, optional Retry-After header, body shape) or
a raised network-layer exception.  All observable side effects (requests
issued, sleeps performed, lines printed) are collected in result structures.

Modelling conventions:
- machine integers are `Nat`; sleep durations are `ℚ` (Python floats appear
  only as sleep lengths and Retry-After values, where rational values are an
  exact model of every value the claims mention);
- the outcome `exhausted` marks the scripted trace running out; the real
  loop would keep issuing requests, so theorems always supply enough events;
- the text of printed messages is abbreviated, but a message is recorded
  exactly when the source executes a `print`;
- the string-to-float parse of the Retry-After header is modelled by the
  header already carrying its parse outcome (`parseable w` / `unparseable s`),
  since the claims quantify over parse outcomes, not over float syntax;
- `time.sleep` raises `ValueError` on a negative argument, which the source
  catches in the same `except ValueError` as the float parse; the model
  reflects this with the `0 ≤ w` test in the 429 branch.
-/

/-- One record returned by the API: an opaque mapping field name → value
(`dict` in the source), modelled as an association list. -/
abbrev Rec := List (String × String)

/-- Shape of a response body as seen by `response.json()`:
a JSON list of records, JSON of some other type (carrying the name of that
Python type for the warning message), or a body that is not JSON at all
(where `response.json()` raises `ValueError`). -/
inductive Body where
  | jsonList (recs : List Rec)
  | jsonNonList (typeName : String)
  | notJson
deriving DecidableEq

/-- Parse outcome of a Retry-After header value under Python `float(...)`. -/
inductive RAHeader where
  | parseable (w : ℚ)
  | unparseable (s : String)
deriving DecidableEq

/-- One HTTP response: status code, optional Retry-After header, body. -/
structure Response where
  status : Nat
  retryAfter : Option RAHeader
  body : Body
deriving DecidableEq

/-- One event at the network boundary: a response, or an exception raised by
`self.session.get` (connection error, timeout, other request exception). -/
inductive NetEvent where
  | resp (r : Response)
  | connError (cause : String)
  | timeoutErr (cause : String)
  | requestErr (cause : String)
deriving DecidableEq

/-- Distinct `APIError` raise sites of `_make_request`, each carrying the data
interpolated into its message. -/
inductive APIErr where
  | authFailed
  | rateLimited
  | notFoundErr (endpointName : String)
  | httpError (status : Nat) (endpointName : String)
  | connFailed (cause : String)
  | timeoutFail (endpointName : String) (cause : String)
  | requestFailed (endpointName : String) (cause : String)
  | invalidJson (endpointName : String)
deriving DecidableEq

/-- Message text of each `APIError`, following the f-strings in the source
(status codes and causes interpolated in source order). -/
def errMsg : APIErr → String
  | .authFailed => "Authentication failed. Check your API key."
  | .rateLimited => "Rate limit exceeded. Please wait before making more requests."
  | .notFoundErr n => "Endpoint not found: " ++ n
  | .httpError s n => "HTTP " ++ toString s ++ " error for " ++ n
  | .connFailed c => "Failed to connect to FAC API: " ++ c
  | .timeoutFail n c => "Request timeout for " ++ n ++ ": " ++ c
  | .requestFailed n c => "Request failed for " ++ n ++ ": " ++ c
  | .invalidJson n => "Invalid JSON response from " ++ n

/-- Result of one `_make_request` call: records on success, a raised
`APIError`, a raised `ValueError` (unknown endpoint name), or the scripted
trace running out mid-loop. -/
inductive ReqOutcome where
  | ok (recs : List Rec)
  | apiError (e : APIErr)
  | valueError (msg : String)
  | exhausted
deriving DecidableEq

/-- Observations of one `_make_request` call: its outcome, the GET requests
issued (url with query parameters, in order), the sleeps performed, the lines
printed, and the unconsumed remainder of the scripted trace. -/
structure ReqResult where
  outcome : ReqOutcome
  gets : List (String × List (String × String))
  sleeps : List ℚ
  logs : List String
  rest : List NetEvent
deriving DecidableEq

/-- Base url of the FAC API (`self.base_url`). -/
def baseUrl : String := "https://api.fac.gov"

/-- Endpoint table (`self.endpoints`), in source order. -/
def endpoints : List (String × String) :=
  [ ("general", "/general")
  , ("federal_awards", "/federal_awards")
  , ("additional_eins", "/additional_eins")
  , ("additional_ueis", "/additional_ueis")
  , ("corrective_action_plans", "/corrective_action_plans")
  , ("findings", "/findings")
  , ("findings_text", "/findings_text")
  , ("notes_to_sefa", "/notes_to_sefa")
  , ("passthrough", "/passthrough")
  , ("secondary_auditors", "/secondary_auditors") ]

/-- Jurisdiction list (`self.all_auditee_states`), in source order. -/
def defaultStates : List String :=
  [ "AK", "AL", "AR", "AS", "AZ", "CA", "CO", "CT", "DC", "DE", "FL", "FM", "GA", "GU", "HI", "IA", "ID"
  , "IL", "IN", "KS", "KY", "LA", "MA", "MD", "ME", "MH", "MI", "MN", "MO", "MP", "MS", "MT", "NC", "ND"
  , "NE", "NH", "NJ", "NM", "NV", "NY", "OH", "OK", "OR", "PA", "PR", "PW", "RI", "SC", "SD", "TN", "TX"
  , "UT", "VA", "VI", "VT", "WA", "WI", "WV", "WY" ]

/-- Client configuration that varies per run: year bounds (`min_audit_year`,
`max_audit_year`, the latter computed from the clock at construction) and the
jurisdiction list. -/
structure FACCfg where
  minYear : Nat
  maxYear : Nat
  states : List String
deriving DecidableEq

/-- Whitespace test used by the character-level model of `str.strip()`. -/
def isSpaceChar (c : Char) : Bool := c == ' ' || c == '\t' || c == '\n' || c == '\r'

/-- ASCII lower-casing of one character, the character-level model of
`str.lower()` for the ASCII endpoint names this client uses. -/
def lowerChar (c : Char) : Char :=
  if 65 ≤ c.toNat ∧ c.toNat ≤ 90 then Char.ofNat (c.toNat + 32) else c

/-- Drop leading and trailing whitespace from a character list
(`str.strip()`). -/
def trimChars (l : List Char) : List Char :=
  ((l.dropWhile isSpaceChar).reverse.dropWhile isSpaceChar).reverse

/-- String normalization `_validate_string` applied to endpoint names
(`input_string.strip().lower()`); the `None` / non-`str` error branches are
unrepresentable here because the argument is typed `String`. -/
def validateString (s : String) : String :=
  String.mk ((trimChars s.data).map lowerChar)

/-- ASCII upper-casing of one character, the character-level model of
`str.upper()` applied to two-letter state codes. -/
def upperChar (c : Char) : Char :=
  if 97 ≤ c.toNat ∧ c.toNat ≤ 122 then Char.ofNat (c.toNat - 32) else c

/-- Model of `auditee_state.strip().upper()`. -/
def stripUpper (s : String) : String :=
  String.mk ((trimChars s.data).map upperChar)

/-- Request/retry loop body of `_make_request` (`while True:` at line 106).
One scripted event is consumed per iteration of the source loop.  The 429
branch with `handle_429=True` either sleeps and continues (parseable
non-negative hint), or logs and continues with no sleep (unparseable or
negative hint — `time.sleep` rejects negatives with the `ValueError` the
source catches — or an absent hint, which logs nothing); since `handle_429`
is true on that path, the trailing `if not handle_429: break` never fires and
the loop re-issues the request immediately. -/
def reqLoop (endpointName url : String) (params : List (String × String))
    (handle429 : Bool) : List NetEvent → ReqResult
  | [] => ⟨.exhausted, [], [], [], []⟩
  | ev :: rest =>
    match ev with
    | .connError c => ⟨.apiError (.connFailed c), [(url, params)], [], [], rest⟩
    | .timeoutErr c => ⟨.apiError (.timeoutFail endpointName c), [(url, params)], [], [], rest⟩
    | .requestErr c => ⟨.apiError (.requestFailed endpointName c), [(url, params)], [], [], rest⟩
    | .resp r =>
      if 400 ≤ r.status ∧ r.status < 600 then
        -- response.raise_for_status() raised HTTPError
        if r.status = 401 then
          ⟨.apiError .authFailed, [(url, params)], [], [], rest⟩
        else if r.status = 429 then
          if handle429 = false then
            ⟨.apiError .rateLimited, [(url, params)], [], [], rest⟩
          else
            match r.retryAfter with
            | some (.parseable w) =>
              let t := reqLoop endpointName url params handle429 rest
              ⟨t.outcome, (url, params) :: t.gets,
               (if 0 ≤ w then [w] else []) ++ t.sleeps,
               "Rate limit hit, waiting"
                 :: ((if 0 ≤ w then [] else ["Invalid Retry-After header"]) ++ t.logs),
               t.rest⟩
            | some (.unparseable s) =>
              let t := reqLoop endpointName url params handle429 rest
              ⟨t.outcome, (url, params) :: t.gets, t.sleeps,
               ("Invalid Retry-After header: " ++ s) :: t.logs, t.rest⟩
            | none =>
              let t := reqLoop endpointName url params handle429 rest
              ⟨t.outcome, (url, params) :: t.gets, t.sleeps, t.logs, t.rest⟩
        else if r.status = 404 then
          ⟨.apiError (.notFoundErr endpointName), [(url, params)], [], [], rest⟩
        else
          ⟨.apiError (.httpError r.status endpointName), [(url, params)], [], [], rest⟩
      else
        -- 2xx/3xx: parse the body
        match r.body with
        | .jsonList recs => ⟨.ok recs, [(url, params)], [], [], rest⟩
        | .jsonNonList tn =>
          ⟨.ok [], [(url, params)], [],
           ["Warning: Expected list from " ++ endpointName ++ ", got " ++ tn], rest⟩
        | .notJson => ⟨.apiError (.invalidJson endpointName), [(url, params)], [], [], rest⟩

/-- Model of `FACClient._make_request`: validates the endpoint name against
the endpoint table (raising `ValueError` for unknown names before any network
activity), then runs the request loop. -/
def makeRequest (endpointName : String) (params : List (String × String))
    (handle429 : Bool) (trace : List NetEvent) : ReqResult :=
  let name := validateString endpointName
  match endpoints.lookup name with
  | none => ⟨.valueError ("Unknown endpoint: " ++ name), [], [], [], trace⟩
  | some path => reqLoop name (baseUrl ++ path) params handle429 trace

/-- Shorthand: a 200 response with the given body. -/
def resp200 (b : Body) : NetEvent := .resp ⟨200, none, b⟩

/-- Shorthand: a successful response whose body is a JSON list of records. -/
def respList (recs : List Rec) : NetEvent := resp200 (.jsonList recs)

/-- Shorthand: a 429 response with the given Retry-After parse outcome. -/
def resp429 (ra : Option RAHeader) : NetEvent := .resp ⟨429, ra, .jsonList []⟩

/-- Shorthand: a 404 response. -/
def resp404 : NetEvent := .resp ⟨404, none, .jsonList []⟩

/-- Query parameters built by `FACClient.get_general` (lines 177-196): an
optional comma-joined `select` projection, then one entry per present filter
argument, accumulated in source order into the `params` dict. -/
def getGeneralParams (columns : Option (List String))
    (reportId auditeeUei auditeeEin auditeeName auditeeCity auditeeState : Option String)
    (auditYear : Option Nat) : List (String × String) :=
  (match columns with | some cs => [("select", String.intercalate "," cs)] | none => [])
  ++ (match reportId with | some v => [("report_id", "eq." ++ v)] | none => [])
  ++ (match auditeeUei with | some v => [("auditee_uei", "eq." ++ v)] | none => [])
  ++ (match auditeeEin with | some v => [("auditee_ein", "eq." ++ v)] | none => [])
  ++ (match auditeeName with | some v => [("auditee_name", "ilike.*" ++ v ++ "*")] | none => [])
  ++ (match auditeeCity with | some v => [("auditee_city", "eq." ++ v)] | none => [])
  ++ (match auditeeState with | some v => [("auditee_state", "eq." ++ stripUpper v)] | none => [])
  ++ (match auditYear with | some y => [("audit_year", "eq." ++ toString y)] | none => [])

/-- Model of `FACClient.get_general`: build the filter set and issue one
request against the `general` endpoint. -/
def getGeneral (columns : Option (List String))
    (reportId auditeeUei auditeeEin auditeeName auditeeCity auditeeState : Option String)
    (auditYear : Option Nat) (handle429 : Bool) (trace : List NetEvent) : ReqResult :=
  makeRequest "general"
    (getGeneralParams columns reportId auditeeUei auditeeEin auditeeName auditeeCity
      auditeeState auditYear)
    handle429 trace

/-- Query parameters built by `FACClient.get_federal_awards` (lines 251-268).
Each later present filter argument re-assigns `params` wholesale rather than
merging (the `params = {...}` statements in the source), and the award
extension is consulted only inside the agency-prefix branch. -/
def fedAwardsParams (columns : Option (List String))
    (reportId agencyPfx awardExt addlAwardId programName clusterName : Option String) :
    List (String × String) :=
  let p0 : List (String × String) :=
    match columns with | some cs => [("select", String.intercalate "," cs)] | none => []
  let p1 := match reportId with | some v => [("report_id", "eq." ++ v)] | none => p0
  let p2 :=
    match agencyPfx with
    | some v =>
      (match awardExt with
       | some w => [("federal_award_extension", "eq." ++ w)]
       | none => [("federal_agency_prefix", "eq." ++ v)])
    | none => p1
  let p3 :=
    match addlAwardId with
    | some v => [("additional_award_identification", "eq.*" ++ v ++ "*")]
    | none => p2
  let p4 :=
    match programName with
    | some v => [("federal_program_name", "ilike.*" ++ v ++ "*")]
    | none => p3
  match clusterName with
  | some v => [("cluster_name", "ilike.*" ++ v ++ "*")]
  | none => p4

/-- Model of `FACClient.get_federal_awards`: build the filter set and issue
one request against the `federal_awards` endpoint. -/
def getFederalAwards (columns : Option (List String))
    (reportId agencyPfx awardExt addlAwardId programName clusterName : Option String)
    (handle429 : Bool) (trace : List NetEvent) : ReqResult :=
  makeRequest "federal_awards"
    (fedAwardsParams columns reportId agencyPfx awardExt addlAwardId programName clusterName)
    handle429 trace

/-- Observations of one `get_all_general` sweep: accumulated records, the
(year, state) pairs attempted in order, the GET requests issued, the pairs
whose `APIError` was caught and printed at line 221, sleeps, printed lines,
a fatal non-`APIError` exception escaping the sweep (dead code for the fixed
endpoint name, kept for faithfulness), and the unconsumed trace. -/
structure SweepResult where
  results : List Rec
  calls : List (Nat × String)
  gets : List (String × List (String × String))
  errPairs : List (Nat × String)
  sleeps : List ℚ
  logs : List String
  fatal : Option String
  rest : List NetEvent
deriving DecidableEq

/-- Year-by-state traversal order of `get_all_general`
(`range(self.min_audit_year, self.max_audit_year + 1)` crossed with
`self.all_auditee_states`). -/
def pairsOf (cfg : FACCfg) : List (Nat × String) :=
  ((List.range (cfg.maxYear + 1 - cfg.minYear)).map (cfg.minYear + ·)).flatMap
    (fun y => cfg.states.map (fun s => (y, s)))

/-- Inner double loop of `get_all_general` (lines 213-221): one
`get_general` call per (year, state) pair with `handle_429=True`, results
extended in traversal order, a caught `APIError` printed and skipped.  An
exhausted trace records the attempt and continues; a `ValueError` (unknown
endpoint, impossible for the literal name `'general'`) would escape the
`except APIError` clause and abort the sweep. -/
def sweepPairs (columns : Option (List String)) (sp : Bool) :
    List (Nat × String) → List NetEvent → SweepResult
  | [], trace => ⟨[], [], [], [], [], [], none, trace⟩
  | (y, s) :: ps, trace =>
    let progLog : List String := if sp then ["Processing " ++ toString y ++ "-" ++ s] else []
    let r := getGeneral columns none none none none none (some s) (some y) true trace
    match r.outcome with
    | .ok recs =>
      let t := sweepPairs columns sp ps r.rest
      ⟨recs ++ t.results, (y, s) :: t.calls, r.gets ++ t.gets, t.errPairs,
       r.sleeps ++ t.sleeps, progLog ++ r.logs ++ t.logs, t.fatal, t.rest⟩
    | .apiError e =>
      let t := sweepPairs columns sp ps r.rest
      ⟨t.results, (y, s) :: t.calls, r.gets ++ t.gets, (y, s) :: t.errPairs,
       r.sleeps ++ t.sleeps,
       progLog ++ r.logs
         ++ [("Error retrieving data for " ++ toString y ++ "-" ++ s ++ ": " ++ errMsg e)]
         ++ t.logs,
       t.fatal, t.rest⟩
    | .exhausted =>
      let t := sweepPairs columns sp ps r.rest
      ⟨t.results, (y, s) :: t.calls, r.gets ++ t.gets, t.errPairs,
       r.sleeps ++ t.sleeps, progLog ++ r.logs ++ t.logs, t.fatal, t.rest⟩
    | .valueError m =>
      ⟨[], [(y, s)], r.gets, [], r.sleeps, progLog ++ r.logs, some m, r.rest⟩

/-- Model of `FACClient.get_all_general`: sweep the full year-by-state
cross product; the final total-count line prints only when `show_progress`
is set and no exception escaped. -/
def getAllGeneral (cfg : FACCfg) (columns : Option (List String)) (sp : Bool)
    (trace : List NetEvent) : SweepResult :=
  let r := sweepPairs columns sp (pairsOf cfg) trace
  ⟨r.results, r.calls, r.gets, r.errPairs, r.sleeps,
   r.logs ++ (match r.fatal, sp with | none, true => ["Total records retrieved"] | _, _ => []),
   r.fatal, r.rest⟩

/-- Deduplication `list(set(...))` at line 291.  Python set iteration order
is unspecified (but stable within one run); the model fixes one deterministic
order via `List.dedup`, which keeps the last occurrence of each key. -/
def pySet (l : List String) : List String := l.dedup

/-- Fuel-driven worker for `chunks`; the fuel is an upper bound on the list
length, so the `0, _ :: _` arm is never reached from `chunks`. -/
def chunksGo (b : Nat) : Nat → List String → List (List String)
  | _, [] => []
  | 0, _ :: _ => []
  | fuel + 1, a :: t => (a :: t.take (b - 1)) :: chunksGo b fuel (t.drop (b - 1))

/-- Batch slicing of `get_all_federal_awards`
(`for i in range(0, len(report_ids), batch_size): report_ids[i:i+batch_size]`);
consecutive slices of at most `b` keys.  Python raises `ValueError` for a
zero step, so the claims only consider `0 < b`; the model is total and
produces singleton chunks at `b = 0`. -/
def chunks (b : Nat) (l : List String) : List (List String) := chunksGo b l.length l

/-- Decidable substring test on character lists: `listHasPre p l` holds when
`p` is a leading segment of `l`. -/
def listHasPre : List Char → List Char → Bool
  | [], _ => true
  | _ :: _, [] => false
  | a :: p, b :: l => a == b && listHasPre p l

/-- Decidable substring test on character lists: `listHasSub p l` holds when
`p` occurs contiguously somewhere in `l`. -/
def listHasSub (p : List Char) : List Char → Bool
  | [] => p.isEmpty
  | a :: t => listHasPre p (a :: t) || listHasSub p t

/-- Model of the Python `in` test on strings (`"..." in str(e)`). -/
def strContains (s pat : String) : Bool := listHasSub pat.data s.data

/-- Network-error classification of `get_all_federal_awards` (line 335):
substring tests on the text of the caught `APIError`. -/
def isNetworkRetryable (e : APIErr) : Bool :=
  strContains (errMsg e) "Failed to connect"
    || strContains (errMsg e) "Failed to resolve"
    || strContains (errMsg e) "NameResolutionError"

/-- Observations of the retry loop for one batch (lines 316-345). -/
structure AttemptRes where
  success : Bool
  recs : List Rec
  gets : List (String × List (String × String))
  sleeps : List ℚ
  logs : List String
  rest : List NetEvent
deriving DecidableEq

/-- Per-batch retry loop `for attempt in range(max_retries)` of
`get_all_federal_awards`, parameterized by attempts left
(`max_retries - attempt`) and the current backoff delay.  A network-class
`APIError` with at least one attempt left after this one sleeps the delay,
doubles it, and retries; any other `APIError` (and the impossible
`ValueError`, which the `except APIError` clause would not catch, and an
exhausted trace) ends the loop with the batch unsuccessful. -/
def attemptLoop (sp : Bool) (params : List (String × String)) :
    Nat → ℚ → List NetEvent → AttemptRes
  | 0, _, trace => ⟨false, [], [], [], [], trace⟩
  | n + 1, delay, trace =>
    let r := makeRequest "federal_awards" params true trace
    match r.outcome with
    | .ok recs =>
      ⟨true, recs, r.gets, r.sleeps,
       r.logs ++ (if sp then ["Found federal award records"] else []), r.rest⟩
    | .apiError e =>
      if 1 ≤ n ∧ isNetworkRetryable e = true then
        let t := attemptLoop sp params n (2 * delay) r.rest
        ⟨t.success, t.recs, r.gets ++ t.gets, r.sleeps ++ delay :: t.sleeps,
         r.logs ++ (if sp then ["Network error, retrying"] else []) ++ t.logs, t.rest⟩
      else
        ⟨false, [], r.gets, r.sleeps,
         r.logs ++ (if sp then ["Error processing batch"] else []), r.rest⟩
    | .valueError _ => ⟨false, [], r.gets, r.sleeps, r.logs, r.rest⟩
    | .exhausted => ⟨false, [], r.gets, r.sleeps, r.logs, r.rest⟩

/-- Observations of the whole batch loop (lines 304-357). -/
structure BatchesRes where
  allResults : List Rec
  failedBatches : List (Nat × List String)
  gets : List (String × List (String × String))
  sleeps : List ℚ
  logs : List String
  rest : List NetEvent
deriving DecidableEq

/-- Batch loop of `get_all_federal_awards`: for each batch build the
set-membership filter `report_id=in.(...)`, run the retry loop with
`max_retries = 3` and initial delay `5`, record a failed batch as
`(batch_num, batch_ids)`, pace with a half-second sleep after every batch
except the last, and print a checkpoint line every 100 batches when both
`save_progress` and `show_progress` are set. -/
def fetchBatches (sp svp : Bool) (totalBatches : Nat) :
    Nat → List (List String) → List NetEvent → BatchesRes
  | _, [], trace => ⟨[], [], [], [], [], trace⟩
  | batchNum, ids :: more, trace =>
    let idFilter := "in.(" ++ String.intercalate "," ids ++ ")"
    let a := attemptLoop sp [("report_id", idFilter)] 3 5 trace
    let pacing : List ℚ := if batchNum < totalBatches then [0.5] else []
    let ckpt : List String :=
      if svp ∧ batchNum % 100 = 0 ∧ sp then ["Progress checkpoint"] else []
    let t := fetchBatches sp svp totalBatches (batchNum + 1) more a.rest
    ⟨(if a.success then a.recs else []) ++ t.allResults,
     (if a.success then [] else [(batchNum, ids)]) ++ t.failedBatches,
     a.gets ++ t.gets,
     a.sleeps ++ pacing ++ t.sleeps,
     (if sp then ["Processing batch " ++ toString batchNum] else [])
       ++ a.logs ++ ckpt ++ t.logs,
     t.rest⟩

/-- Observations of one `get_all_federal_awards` run.  The field `retValue`
is the value the Python function hands back to its caller: the source body
contains no `return` statement, so the function falls off the end and always
returns `None`. -/
structure FedResult where
  raised : Option String
  retValue : Option (List Rec)
  harvested : List Rec
  harvestErrPairs : List (Nat × String)
  reportIds : List String
  allResults : List Rec
  failedBatches : List (Nat × List String)
  gets : List (String × List (String × String))
  sleeps : List ℚ
  logs : List String
  rest : List NetEvent
deriving DecidableEq

/-- Model of `FACClient.get_all_federal_awards` (lines 272-363): harvest all
report ids through `get_all_general` projected to the `report_id` column,
deduplicate (silently skipping records without that field), slice into
batches, fetch each batch with the retry loop, and print a final summary when
`show_progress` is set.  `retValue` is `none` on every path because the
source never returns `all_results`. -/
def getAllFederalAwards (cfg : FACCfg) (batchSize : Nat) (sp svp : Bool)
    (trace : List NetEvent) : FedResult :=
  let step1 : List String := if sp then ["Step 1: Getting all report ids"] else []
  let h := getAllGeneral cfg (some ["report_id"]) sp trace
  match h.fatal with
  | some m =>
    ⟨some ("Failed to get general records: " ++ m), none, h.results, h.errPairs, [], [], [],
     h.gets, h.sleeps, step1 ++ h.logs, h.rest⟩
  | none =>
    let harvested := h.results
    let reportIds := pySet (harvested.filterMap (fun r => r.lookup "report_id"))
    let totalBatches := (reportIds.length + batchSize - 1) / batchSize
    let mid : List String :=
      if sp then ["Retrieved report id records", "Step 2: Found unique report ids",
                  "Step 3: Processing in batches"] else []
    let f := fetchBatches sp svp totalBatches 1 (chunks batchSize reportIds) h.rest
    let fin : List String :=
      if sp then
        ["Completed"] ++ (if f.failedBatches = [] then [] else ["Warning: batches failed"])
      else []
    ⟨none, none, harvested, h.errPairs, reportIds, f.allResults, f.failedBatches,
     h.gets ++ f.gets, h.sleeps ++ f.sleeps, step1 ++ h.logs ++ mid ++ f.logs ++ fin,
     f.rest⟩

/-- One-year, one-jurisdiction configuration used by concrete run scenarios. -/
def cfg1 : FACCfg := ⟨2016, 2016, ["AK"]⟩

/-- One-year, two-jurisdiction configuration used by the sweep scenario. -/
def cfgTwo : FACCfg := ⟨2016, 2016, ["AK", "AL"]⟩

/-- Spec-side definition for the filter-replacement contract, following the
claim's words: the query mapping equals the single filter produced by the
last-applied present argument, where application order is report id, agency
prefix (with the award extension applied only inside the agency-prefix
branch), additional award identification, program name, cluster name. -/
def specLastAppliedFilter
    (reportId agencyPfx awardExt addlAwardId programName clusterName : Option String) :
    Option (String × String) :=
  match clusterName with
  | some v => some ("cluster_name", "ilike.*" ++ v ++ "*")
  | none =>
    match programName with
    | some v => some ("federal_program_name", "ilike.*" ++ v ++ "*")
    | none =>
      match addlAwardId with
      | some v => some ("additional_award_identification", "eq.*" ++ v ++ "*")
      | none =>
        match agencyPfx with
        | some v =>
          (match awardExt with
           | some w => some ("federal_award_extension", "eq." ++ w)
           | none => some ("federal_agency_prefix", "eq." ++ v))
        | none =>
          match reportId with
          | some v => some ("report_id", "eq." ++ v)
          | none => none

theorem reqLoop_outcome_ne_valueError (n u : String) (p : List (String × String))
    (h : Bool) (m : String) :
    ∀ t : List NetEvent, (reqLoop n u p h t).outcome ≠ .valueError m := by
  intro t
  induction t with
  | nil => simp [reqLoop]
  | cons ev rest ih =>
    cases ev with
    | connError c => simp [reqLoop]
    | timeoutErr c => simp [reqLoop]
    | requestErr c => simp [reqLoop]
    | resp r =>
      obtain ⟨st, ra, bd⟩ := r
      simp only [reqLoop]
      split
      · split
        · simp
        · split
          · split
            · simp
            · rcases ra with - | (w | s)
              · exact ih
              · exact ih
              · exact ih
          · split
            · simp
            · simp
      · rcases bd with recs | tn | -
        · simp
        · simp
        · simp

theorem makeRequest_general_ne_valueError (p : List (String × String)) (h : Bool)
    (t : List NetEvent) (m : String) :
    (makeRequest "general" p h t).outcome ≠ .valueError m :=
  reqLoop_outcome_ne_valueError "general" (baseUrl ++ "/general") p h m t

theorem sweepPairs_calls (columns : Option (List String)) (sp : Bool) :
    ∀ (ps : List (Nat × String)) (trace : List NetEvent),
      (sweepPairs columns sp ps trace).calls = ps := by
  intro ps
  induction ps with
  | nil => intro trace; rfl
  | cons p ps ih =>
    intro trace
    obtain ⟨y, s⟩ := p
    simp only [sweepPairs]
    split
    · simp [ih]
    · simp [ih]
    · simp [ih]
    · next m heq => exact absurd heq (makeRequest_general_ne_valueError _ _ _ _)

/-- C2 counterexample: with `handle_429=true` and two 429 responses carrying
no Retry-After hint, `_make_request` reissues the request (two GETs are sent)
with no sleep and does not raise the rate-limit error — refuting the claim
that it raises instead of retrying without delay. -/
theorem c2_counterexample :
    (makeRequest "general" [] true [resp429 none, resp429 none]).gets
        = [("https://api.fac.gov/general", []), ("https://api.fac.gov/general", [])]
      ∧ (makeRequest "general" [] true [resp429 none, resp429 none]).sleeps = []
      ∧ (makeRequest "general" [] true [resp429 none, resp429 none]).outcome
          ≠ .apiError .rateLimited :=
  ⟨rfl, rfl, by decide⟩

/-- C2 amended: with `handle_429=true` and a 429 response whose Retry-After
hint is absent, unparseable, or parseable but negative (where `time.sleep`
raises the `ValueError` the source catches at line 131), `_make_request` logs
the invalid hint (when one is present) and immediately reissues the identical
request with no sleep — it busy-spins on the remaining trace rather than
raising the rate-limit error. -/
theorem c2_amended_busy_retry (params : List (String × String)) (s : String)
    (rest : List NetEvent) :
    (makeRequest "general" params true (resp429 none :: rest)
        = ⟨(makeRequest "general" params true rest).outcome,
           ("https://api.fac.gov/general", params) :: (makeRequest "general" params true rest).gets,
           (makeRequest "general" params true rest).sleeps,
           (makeRequest "general" params true rest).logs,
           (makeRequest "general" params true rest).rest⟩)
      ∧ (makeRequest "general" params true (resp429 (some (.unparseable s)) :: rest)
        = ⟨(makeRequest "general" params true rest).outcome,
           ("https://api.fac.gov/general", params) :: (makeRequest "general" params true rest).gets,
           (makeRequest "general" params true rest).sleeps,
           ("Invalid Retry-After header: " ++ s) :: (makeRequest "general" params true rest).logs,
           (makeRequest "general" params true rest).rest⟩)
      ∧ (∀ w : ℚ, w < 0 →
          makeRequest "general" params true (resp429 (some (.parseable w)) :: rest)
            = ⟨(makeRequest "general" params true rest).outcome,
               ("https://api.fac.gov/general", params)
                 :: (makeRequest "general" params true rest).gets,
               (makeRequest "general" params true rest).sleeps,
               "Rate limit hit, waiting" :: "Invalid Retry-After header"
                 :: (makeRequest "general" params true rest).logs,
               (makeRequest "general" params true rest).rest⟩) := by
  refine ⟨rfl, rfl, ?_⟩
  intro w hw
  have hnle : ¬ (0 : ℚ) ≤ w := not_le.mpr hw
  show (⟨(makeRequest "general" params true rest).outcome,
         ("https://api.fac.gov/general", params) :: (makeRequest "general" params true rest).gets,
         (if (0 : ℚ) ≤ w then [w] else []) ++ (makeRequest "general" params true rest).sleeps,
         "Rate limit hit, waiting"
           :: ((if (0 : ℚ) ≤ w then [] else ["Invalid Retry-After header"])
             ++ (makeRequest "general" params true rest).logs),
         (makeRequest "general" params true rest).rest⟩ : ReqResult) = _
  rw [if_neg hnle, if_neg hnle]
  rfl

/-- Witness for the C2 amended theorem at a parseable negative hint of -1
second: the request is reissued with no sleep, both rate-limit prints are
emitted, and no error is raised. -/
theorem c2_amended_busy_retry_witness :
    (-1 : ℚ) < 0
      ∧ makeRequest "general" [] true [resp429 (some (.parseable (-1)))]
          = ⟨.exhausted, [("https://api.fac.gov/general", [])], [],
             ["Rate limit hit, waiting", "Invalid Retry-After header"], []⟩ :=
  ⟨by decide, (c2_amended_busy_retry [] "soon" []).2.2 (-1) (by decide)⟩

/-- C3 counterexample: a 200 response whose body is not JSON makes
`_make_request` raise the invalid-JSON `APIError` with no warning printed —
refuting the claim that a non-JSON body degrades to an empty sequence with a
warning. -/
theorem c3_counterexample :
    (makeRequest "general" [] false [resp200 .notJson]).outcome
        = .apiError (.invalidJson "general")
      ∧ (makeRequest "general" [] false [resp200 .notJson]).logs = [] := by
  decide

/-- C3 amended: a 200 response whose body is JSON but not a list degrades to
an empty record sequence with a logged warning, while a 200 response whose
body is not JSON at all raises the invalid-JSON `APIError` instead of
degrading. -/
theorem c3_amended_degrade (params : List (String × String)) (tn : String)
    (rest : List NetEvent) :
    (makeRequest "general" params false (resp200 (.jsonNonList tn) :: rest)).outcome = .ok []
      ∧ (makeRequest "general" params false (resp200 (.jsonNonList tn) :: rest)).logs
          = ["Warning: Expected list from general, got " ++ tn]
      ∧ (makeRequest "general" params false (resp200 .notJson :: rest)).outcome
          = .apiError (.invalidJson "general") :=
  ⟨rfl, rfl, rfl⟩

/-- C4: for a 429 stream with `handle_429=true` and parseable non-negative
Retry-After hints `ws` followed by a success, `_make_request` sleeps exactly
each hint once per retry and reissues the identical request (same url, same
query parameters) each time, finally returning the success records; and with
`handle_429=false` a 429 raises the rate-limit error immediately with no
sleep and no reissue. -/
theorem c4_retry_after_sleep (ws : List ℚ) (hws : ∀ w ∈ ws, 0 ≤ w)
    (params : List (String × String)) (recs : List Rec) (rest : List NetEvent) :
    ((makeRequest "general" params true
        (ws.map (fun w => resp429 (some (.parseable w))) ++ respList recs :: rest)).outcome
        = .ok recs
      ∧ (makeRequest "general" params true
          (ws.map (fun w => resp429 (some (.parseable w))) ++ respList recs :: rest)).sleeps
          = ws
      ∧ (makeRequest "general" params true
          (ws.map (fun w => resp429 (some (.parseable w))) ++ respList recs :: rest)).gets
          = List.replicate (ws.length + 1) ("https://api.fac.gov/general", params)
      ∧ (makeRequest "general" params true
          (ws.map (fun w => resp429 (some (.parseable w))) ++ respList recs :: rest)).rest
          = rest)
      ∧ ∀ (ra : Option RAHeader) (rest2 : List NetEvent),
          (makeRequest "general" params false (resp429 ra :: rest2)).outcome
              = .apiError .rateLimited
            ∧ (makeRequest "general" params false (resp429 ra :: rest2)).sleeps = []
            ∧ (makeRequest "general" params false (resp429 ra :: rest2)).gets
              = [("https://api.fac.gov/general", params)] := by
  constructor
  · revert hws
    induction ws with
    | nil => intro hws; exact ⟨rfl, rfl, rfl, rfl⟩
    | cons w ws ih =>
      intro hws
      have hw : (0 : ℚ) ≤ w := hws w (List.mem_cons_self w ws)
      obtain ⟨ih1, ih2, ih3, ih4⟩ := ih (fun x hx => hws x (List.mem_cons_of_mem w hx))
      refine ⟨ih1, ?_, ?_, ih4⟩
      · show (if (0 : ℚ) ≤ w then [w] else [])
            ++ (makeRequest "general" params true
              (ws.map (fun w => resp429 (some (.parseable w))) ++ respList recs :: rest)).sleeps
          = w :: ws
        rw [if_pos hw, ih2]
        rfl
      · show ("https://api.fac.gov/general", params)
            :: (makeRequest "general" params true
              (ws.map (fun w => resp429 (some (.parseable w))) ++ respList recs :: rest)).gets
          = List.replicate (ws.length + 1 + 1) ("https://api.fac.gov/general", params)
        rw [ih3]
        rfl
  · intro ra rest2
    exact ⟨rfl, rfl, rfl⟩

/-- Witness for C4 at one parseable hint of 3 seconds, empty parameters and
an empty success body. -/
theorem c4_retry_after_sleep_witness :
    (∀ w ∈ [(3 : ℚ)], 0 ≤ w)
      ∧ (((makeRequest "general" [] true
            [resp429 (some (.parseable 3)), respList []]).outcome = .ok []
          ∧ (makeRequest "general" [] true
              [resp429 (some (.parseable 3)), respList []]).sleeps = [3]
          ∧ (makeRequest "general" [] true
              [resp429 (some (.parseable 3)), respList []]).gets
              = List.replicate 2 ("https://api.fac.gov/general", [])
          ∧ (makeRequest "general" [] true
              [resp429 (some (.parseable 3)), respList []]).rest = [])
        ∧ ∀ (ra : Option RAHeader) (rest2 : List NetEvent),
            (makeRequest "general" [] false (resp429 ra :: rest2)).outcome
                = .apiError .rateLimited
              ∧ (makeRequest "general" [] false (resp429 ra :: rest2)).sleeps = []
              ∧ (makeRequest "general" [] false (resp429 ra :: rest2)).gets
                = [("https://api.fac.gov/general", [])]) := by
  have hws : ∀ w ∈ [(3 : ℚ)], 0 ≤ w := by
    intro w hw
    simp only [List.mem_singleton] at hw
    subst hw
    norm_num
  exact ⟨hws, c4_retry_after_sleep [3] hws [] [] []⟩

/-- C8: in `get_federal_awards`, each present filter argument fully replaces
the accumulated query mapping, so the parameters sent equal exactly the
single filter of the last-applied present argument (the column projection
surviving only when no filter argument applies). -/
theorem c8_filter_replacement (columns : Option (List String))
    (reportId agencyPfx awardExt addlAwardId programName clusterName : Option String) :
    fedAwardsParams columns reportId agencyPfx awardExt addlAwardId programName clusterName
      = (match specLastAppliedFilter reportId agencyPfx awardExt addlAwardId programName
            clusterName with
         | some f => [f]
         | none =>
           match columns with
           | some cs => [("select", String.intercalate "," cs)]
           | none => []) := by
  cases clusterName <;> cases programName <;> cases addlAwardId <;> cases agencyPfx
    <;> cases awardExt <;> cases reportId <;> cases columns <;> rfl

/-- C9 counterexample: the additional-award-identification filter is emitted
in the `eq.*value*` form, not the `ilike.*value*` form the claim states. -/
theorem c9_counterexample :
    fedAwardsParams none none none none (some "X") none none
        = [("additional_award_identification", "eq.*X*")]
      ∧ ("eq.*X*" : String) ≠ "ilike.*X*" :=
  ⟨rfl, by decide⟩

/-- C9 amended: the `federal_awards` builder emits `ilike.*value*` filters
for program name and cluster name, the `eq.*value*` form (equality operator
around a wildcard-wrapped literal) for additional award identification, and
plain `eq.` filters for report id, agency prefix, and award extension. -/
theorem c9_amended_filter_forms (v w : String) :
    fedAwardsParams none none none none (some v) none none
        = [("additional_award_identification", "eq.*" ++ v ++ "*")]
      ∧ fedAwardsParams none none none none none (some v) none
        = [("federal_program_name", "ilike.*" ++ v ++ "*")]
      ∧ fedAwardsParams none none none none none none (some v)
        = [("cluster_name", "ilike.*" ++ v ++ "*")]
      ∧ fedAwardsParams none (some v) none none none none none
        = [("report_id", "eq." ++ v)]
      ∧ fedAwardsParams none none (some v) none none none none
        = [("federal_agency_prefix", "eq." ++ v)]
      ∧ fedAwardsParams none none (some v) (some w) none none none
        = [("federal_award_extension", "eq." ++ w)] :=
  ⟨rfl, rfl, rfl, rfl, rfl, rfl⟩

theorem chunksGo_nil (b fuel : Nat) : chunksGo b fuel [] = [] := by
  cases fuel <;> rfl

theorem chunksGo_flatten (b : Nat) :
    ∀ (fuel : Nat) (l : List String), l.length ≤ fuel → (chunksGo b fuel l).flatten = l := by
  intro fuel
  induction fuel with
  | zero =>
    intro l hl
    match l with
    | [] => rfl
    | a :: t => simp at hl
  | succ fuel ih =>
    intro l hl
    match l with
    | [] => rfl
    | a :: t =>
      have htl : (t.drop (b - 1)).length ≤ fuel := by
        simp only [List.length_drop]
        simp only [List.length_cons] at hl
        omega
      calc (chunksGo b (fuel + 1) (a :: t)).flatten
          = (a :: t.take (b - 1)) ++ (chunksGo b fuel (t.drop (b - 1))).flatten := by
            simp [chunksGo]
        _ = a :: (t.take (b - 1) ++ t.drop (b - 1)) := by rw [ih _ htl, List.cons_append]
        _ = a :: t := by rw [List.take_append_drop]

theorem chunksGo_count (b : Nat) (hb : 0 < b) :
    ∀ (fuel : Nat) (l : List String), l.length ≤ fuel →
      (chunksGo b fuel l).length = (l.length + b - 1) / b := by
  intro fuel
  induction fuel with
  | zero =>
    intro l hl
    match l with
    | [] => simpa using (Nat.div_eq_of_lt (by omega : b - 1 < b)).symm
    | a :: t => simp at hl
  | succ fuel ih =>
    intro l hl
    match l with
    | [] => simpa using (Nat.div_eq_of_lt (by omega : b - 1 < b)).symm
    | a :: t =>
      have htl : (t.drop (b - 1)).length ≤ fuel := by
        simp only [List.length_drop]
        simp only [List.length_cons] at hl
        omega
      simp only [chunksGo, List.length_cons]
      rw [ih _ htl, List.length_drop]
      rcases Nat.lt_or_ge t.length b with hlt | hge
      · have h1 : t.length - (b - 1) = 0 := by omega
        have h2 : (0 + b - 1) / b = 0 := Nat.div_eq_of_lt (by omega)
        have h3 : (t.length + 1 + b - 1) / b = 1 :=
          Nat.div_eq_of_lt_le (by omega) (by omega)
        rw [h1, h2, h3]
      · have h1 : t.length - (b - 1) + b - 1 = t.length := by omega
        have h2 : t.length + 1 + b - 1 = t.length + b := by omega
        rw [h1, h2, Nat.add_div_right _ hb]

theorem chunksGo_dropLast_length (b : Nat) (hb : 0 < b) :
    ∀ (fuel : Nat) (l : List String), l.length ≤ fuel →
      ∀ c ∈ (chunksGo b fuel l).dropLast, c.length = b := by
  intro fuel
  induction fuel with
  | zero =>
    intro l hl
    match l with
    | [] => intro c hc; simp [chunksGo] at hc
    | a :: t => simp at hl
  | succ fuel ih =>
    intro l hl
    match l with
    | [] => intro c hc; simp [chunksGo] at hc
    | a :: t =>
      intro c hc
      have htl : (t.drop (b - 1)).length ≤ fuel := by
        simp only [List.length_drop]
        simp only [List.length_cons] at hl
        omega
      simp only [chunksGo] at hc
      cases hck : chunksGo b fuel (t.drop (b - 1)) with
      | nil => rw [hck] at hc; simp at hc
      | cons c0 cs =>
        rw [hck, List.dropLast_cons₂, List.mem_cons] at hc
        have hdrop : t.drop (b - 1) ≠ [] := by
          intro hd
          rw [hd, chunksGo_nil] at hck
          exact List.noConfusion hck
        have hlen : b - 1 ≤ t.length := by
          by_contra hcon
          exact hdrop (List.drop_eq_nil_of_le (by omega))
        rcases hc with hc | hc
        · subst hc
          simp only [List.length_cons, List.length_take]
          have hlt : b - 1 < t.length := by
            by_contra hcon
            exact hdrop (List.drop_eq_nil_of_le (by omega))
          omega
        · rw [← hck] at hc
          exact ih _ htl c hc

theorem chunksGo_mem_bounds (b : Nat) (hb : 0 < b) :
    ∀ (fuel : Nat) (l : List String), l.length ≤ fuel →
      ∀ c ∈ chunksGo b fuel l, 0 < c.length ∧ c.length ≤ b := by
  intro fuel
  induction fuel with
  | zero =>
    intro l hl
    match l with
    | [] => intro c hc; simp [chunksGo] at hc
    | a :: t => simp at hl
  | succ fuel ih =>
    intro l hl
    match l with
    | [] => intro c hc; simp [chunksGo] at hc
    | a :: t =>
      intro c hc
      have htl : (t.drop (b - 1)).length ≤ fuel := by
        simp only [List.length_drop]
        simp only [List.length_cons] at hl
        omega
      simp only [chunksGo, List.mem_cons] at hc
      rcases hc with hc | hc
      · subst hc
        simp only [List.length_cons, List.length_take]
        omega
      · exact ih _ htl c hc

/-- C7: for every harvested key list and positive batch size, the
deduplicate-then-partition pipeline of `get_all_federal_awards` produces
exactly ceiling(n / b) consecutive batches whose concatenation is the
deduplicated key list, each batch of size `b` except possibly a shorter
non-empty last one; the deduplicated list has no duplicates and exactly the
distinct harvested keys; and the duplicate harvest R1, R1, R2 collapses to
two keys before batching. -/
theorem c7_partition_law (keys : List String) (b : Nat) (hb : 0 < b) :
    (chunks b (pySet keys)).flatten = pySet keys
      ∧ (chunks b (pySet keys)).length = ((pySet keys).length + b - 1) / b
      ∧ (∀ c ∈ (chunks b (pySet keys)).dropLast, c.length = b)
      ∧ (∀ c ∈ chunks b (pySet keys), 0 < c.length ∧ c.length ≤ b)
      ∧ (pySet keys).Nodup
      ∧ (∀ x, x ∈ pySet keys ↔ x ∈ keys)
      ∧ (pySet ["R1", "R1", "R2"]).length = 2 :=
  ⟨chunksGo_flatten b _ _ le_rfl,
   chunksGo_count b hb _ _ le_rfl,
   chunksGo_dropLast_length b hb _ _ le_rfl,
   chunksGo_mem_bounds b hb _ _ le_rfl,
   List.nodup_dedup keys,
   fun x => List.mem_dedup,
   by decide⟩

/-- Witness for C7 at the duplicate harvest R1, R1, R2 and the default batch
size 250. -/
theorem c7_partition_law_witness :
    0 < 250
      ∧ ((chunks 250 (pySet ["R1", "R1", "R2"])).flatten = pySet ["R1", "R1", "R2"]
        ∧ (chunks 250 (pySet ["R1", "R1", "R2"])).length
            = ((pySet ["R1", "R1", "R2"]).length + 250 - 1) / 250
        ∧ (∀ c ∈ (chunks 250 (pySet ["R1", "R1", "R2"])).dropLast, c.length = 250)
        ∧ (∀ c ∈ chunks 250 (pySet ["R1", "R1", "R2"]), 0 < c.length ∧ c.length ≤ 250)
        ∧ (pySet ["R1", "R1", "R2"]).Nodup
        ∧ (∀ x, x ∈ pySet ["R1", "R1", "R2"] ↔ x ∈ ["R1", "R1", "R2"])
        ∧ (pySet ["R1", "R1", "R2"]).length = 2) :=
  ⟨by decide, c7_partition_law ["R1", "R1", "R2"] 250 (by decide)⟩

/-- C5: `get_all_general` attempts exactly the ascending year-by-jurisdiction
cross product in enumeration order for every configuration and trace; over a
one-year range with two jurisdiction codes it issues exactly the two filtered
requests (2016, AK) then (2016, AL) and concatenates their results in
traversal order; and a per-pair failure that is not a rate-limit condition is
caught, logged, and skipped while the sweep continues. -/
theorem c5_sweep_order :
    (∀ (cfg : FACCfg) (columns : Option (List String)) (sp : Bool) (trace : List NetEvent),
        (getAllGeneral cfg columns sp trace).calls = pairsOf cfg)
      ∧ (∀ r1 r2 : List Rec,
          (getAllGeneral cfgTwo none false [respList r1, respList r2]).gets
              = [("https://api.fac.gov/general",
                   [("auditee_state", "eq.AK"), ("audit_year", "eq.2016")]),
                 ("https://api.fac.gov/general",
                   [("auditee_state", "eq.AL"), ("audit_year", "eq.2016")])]
            ∧ (getAllGeneral cfgTwo none false [respList r1, respList r2]).results = r1 ++ r2)
      ∧ (∀ r2 : List Rec,
          (getAllGeneral cfgTwo none false [.connError "x", respList r2]).errPairs
              = [(2016, "AK")]
            ∧ (getAllGeneral cfgTwo none false [.connError "x", respList r2]).results = r2
            ∧ (getAllGeneral cfgTwo none false [.connError "x", respList r2]).calls
              = [(2016, "AK"), (2016, "AL")]
            ∧ (getAllGeneral cfgTwo none false [.connError "x", respList r2]).logs
              = ["Error retrieving data for 2016-AK: Failed to connect to FAC API: x"]) := by
  refine ⟨fun cfg columns sp trace => sweepPairs_calls columns sp (pairsOf cfg) trace, ?_, ?_⟩
  · intro r1 r2
    refine ⟨rfl, ?_⟩
    show r1 ++ (r2 ++ []) = r1 ++ r2
    rw [List.append_nil]
  · intro r2
    refine ⟨rfl, ?_, rfl, rfl⟩
    show r2 ++ [] = r2
    rw [List.append_nil]

/-- C6: a batch whose three attempts all fail with connection errors is
retried up to the attempt cap of 3 (three GETs beyond the single harvest
request) with sleeps of 5 then 10 seconds between attempts, is recorded in
the failed-batches list as batch 1 with its key list, and collection
continues to the next batch, whose records are still collected (the final
half-second sleep is the inter-batch pacing delay); a batch whose first
attempt fails with a non-network error (404) is recorded as failed after
exactly one attempt with no retry sleeps. -/
theorem c6_batch_retry :
    ((getAllFederalAwards cfg1 1 false false
        [respList [[("report_id", "R1")], [("report_id", "R2")]],
         .connError "boom1", .connError "boom2", .connError "boom3",
         respList [[("award", "A1")]]]).failedBatches = [(1, ["R1"])]
      ∧ (getAllFederalAwards cfg1 1 false false
          [respList [[("report_id", "R1")], [("report_id", "R2")]],
           .connError "boom1", .connError "boom2", .connError "boom3",
           respList [[("award", "A1")]]]).gets.length = 5
      ∧ (getAllFederalAwards cfg1 1 false false
          [respList [[("report_id", "R1")], [("report_id", "R2")]],
           .connError "boom1", .connError "boom2", .connError "boom3",
           respList [[("award", "A1")]]]).allResults = [[("award", "A1")]]
      ∧ (getAllFederalAwards cfg1 1 false false
          [respList [[("report_id", "R1")], [("report_id", "R2")]],
           .connError "boom1", .connError "boom2", .connError "boom3",
           respList [[("award", "A1")]]]).sleeps = [5, 10, 0.5])
      ∧ ((getAllFederalAwards cfg1 1 false false
          [respList [[("report_id", "R1")], [("report_id", "R2")]],
           resp404, respList [[("award", "A2")]]]).failedBatches = [(1, ["R1"])]
        ∧ (getAllFederalAwards cfg1 1 false false
            [respList [[("report_id", "R1")], [("report_id", "R2")]],
             resp404, respList [[("award", "A2")]]]).gets.length = 3
        ∧ (getAllFederalAwards cfg1 1 false false
            [respList [[("report_id", "R1")], [("report_id", "R2")]],
             resp404, respList [[("award", "A2")]]]).allResults = [[("award", "A2")]]
        ∧ (getAllFederalAwards cfg1 1 false false
            [respList [[("report_id", "R1")], [("report_id", "R2")]],
             resp404, respList [[("award", "A2")]]]).sleeps = [0.5]) := by
  refine ⟨⟨by decide, by decide, by decide, ?_⟩, by decide, by decide, by decide, rfl⟩
  have h : (getAllFederalAwards cfg1 1 false false
      [respList [[("report_id", "R1")], [("report_id", "R2")]],
       .connError "boom1", .connError "boom2", .connError "boom3",
       respList [[("award", "A1")]]]).sleeps = [5, 2 * 5, 0.5] := rfl
  rw [h]
  norm_num

/-- C1: the Python function `get_all_federal_awards` hands `None` back to its
caller on every input (its body has no `return` statement), even on a run
that successfully collects award records into its internal accumulator, and
with `show_progress` left at its default the run prints no report at all —
refuting the claim that the complete record list and the run report are
returned to the caller, and contradicting the function's own docstring. -/
theorem c1_no_return_value :
    (∀ (cfg : FACCfg) (b : Nat) (sp svp : Bool) (trace : List NetEvent),
        (getAllFederalAwards cfg b sp svp trace).retValue = none)
      ∧ (getAllFederalAwards cfg1 1 false false
          [respList [[("report_id", "R1")]], respList [[("award", "A1")]]]).allResults
        = [[("award", "A1")]]
      ∧ (getAllFederalAwards cfg1 1 false false
          [respList [[("report_id", "R1")]], respList [[("award", "A1")]]]).logs = [] := by
  refine ⟨?_, by decide, by decide⟩
  intro cfg b sp svp trace
  simp only [getAllFederalAwards]
  split <;> rfl

/-- C10 counterexample: a run whose only harvested record has no report_id
field excludes that record from the report-id set while printing nothing and
recording nothing anywhere — refuting the claim that every such omission
comes with a log entry or record. -/
theorem c10_counterexample :
    (getAllFederalAwards cfg1 1 false false [respList [[("foo", "bar")]]]).harvested
        = [[("foo", "bar")]]
      ∧ (getAllFederalAwards cfg1 1 false false [respList [[("foo", "bar")]]]).reportIds = []
      ∧ (getAllFederalAwards cfg1 1 false false [respList [[("foo", "bar")]]]).logs = []
      ∧ (getAllFederalAwards cfg1 1 false false [respList [[("foo", "bar")]]]).harvestErrPairs
          = []
      ∧ (getAllFederalAwards cfg1 1 false false [respList [[("foo", "bar")]]]).failedBatches
          = [] := by
  refine ⟨by decide, by decide, by decide, by decide, by decide⟩

/-- C10 amended: a harvested record lacking the report_id foreign-key field
(here carrying only a "foo" field with an arbitrary value) is silently
excluded from the report-id set: the run emits no log line and keeps no
record of the omission in any of its outputs. -/
theorem c10_amended_silent_drop (v : String) :
    (getAllFederalAwards cfg1 1 false false [respList [[("foo", v)]]]).harvested = [[("foo", v)]]
      ∧ (getAllFederalAwards cfg1 1 false false [respList [[("foo", v)]]]).reportIds = []
      ∧ (getAllFederalAwards cfg1 1 false false [respList [[("foo", v)]]]).logs = []
      ∧ (getAllFederalAwards cfg1 1 false false [respList [[("foo", v)]]]).harvestErrPairs = []
      ∧ (getAllFederalAwards cfg1 1 false false [respList [[("foo", v)]]]).failedBatches = [] :=
  ⟨rfl, rfl, rfl, rfl, rfl⟩
